import Mathlib

/-!
Verification of the FreeRTOS wind-turbine monitoring core.

This file shallowly embeds the application-level coordination logic of the
repository (safety governor, anomaly detector, readiness bits, stack monitor,
network memory accounting) and settles the specification claims against it.

Floats of the C source are modelled as rationals, FreeRTOS ticks as naturals
(configTICK_RATE_HZ = 1000, so pdMS_TO_TICKS is the identity on millisecond
counts), and each task body as an explicit state-transition function.  Mutex
acquisitions with bounded timeout are modelled as succeeding (the sequential
semantics); queue interaction is modelled by explicit lists.
-/

namespace WindTurbine

/-! ### Shared data model (system_state.h, main.c) -/

/-- Sensor readings, from SensorData_t (vibration, temperature, rpm, current). -/
structure Sensors where
  vibration : ℚ
  temperature : ℚ
  rpm : ℚ
  current : ℚ
deriving DecidableEq, Repr

/-- Threshold configuration, from ThresholdConfig_t. -/
structure Thresholds where
  vibration_warning : ℚ
  vibration_critical : ℚ
  temperature_warning : ℚ
  temperature_critical : ℚ
  rpm_min : ℚ
  rpm_max : ℚ
  current_max : ℚ
deriving DecidableEq, Repr

/-- Threshold values installed by system_state_init in integrated/main.c. -/
def defaultThresholds : Thresholds :=
  { vibration_warning := 5, vibration_critical := 10,
    temperature_warning := 70, temperature_critical := 85,
    rpm_min := 10, rpm_max := 30, current_max := 100 }

/-! ### Safety task embedding (tasks/safety_task.c) -/

/-- Minimum emergency-stop hold, EMERGENCY_STOP_DURATION = 5000 ms (= ticks). -/
def EMERGENCY_STOP_DURATION : ℕ := 5000

/-- SafetyState_t of safety_task.c: four latched alarms, the emergency-stop
activation tick and the cumulative alarm counter. -/
structure SafetyState where
  vibration_alarm : Bool
  temperature_alarm : Bool
  rpm_alarm : Bool
  current_alarm : Bool
  emergency_stop_time : ℕ
  alarm_count : ℕ
deriving DecidableEq, Repr

/-- The zero-initialised safety state (static SafetyState_t safety_state = {0}). -/
def initSafetyState : SafetyState :=
  { vibration_alarm := false, temperature_alarm := false, rpm_alarm := false,
    current_alarm := false, emergency_stop_time := 0, alarm_count := 0 }

/-- One per-channel block of check_critical_conditions: if the condition is
violated and the alarm was not yet latched, latch it, count it, and report a
rising edge; if violated and already latched, keep it with no edge; otherwise
drop the alarm.  Returns (new alarm, new alarm_count, rising edge). -/
def updateAlarm (violated alarm : Bool) (count : ℕ) : Bool × ℕ × Bool :=
  if violated then
    if alarm then (true, count, false) else (true, count + 1, true)
  else (false, count, false)

/-- check_critical_conditions (safety_task.c lines 46-125): evaluates the four
critical conditions against the current readings, updates the latched alarms
edge-triggered, and returns `critical` — true exactly when some alarm latched
anew in this call — together with the updated safety state. -/
def check_critical_conditions (s : Sensors) (th : Thresholds) (st : SafetyState) :
    Bool × SafetyState :=
  let v := updateAlarm (decide (s.vibration > th.vibration_critical))
    st.vibration_alarm st.alarm_count
  let t := updateAlarm (decide (s.temperature > th.temperature_critical))
    st.temperature_alarm v.2.1
  let r := updateAlarm (decide (s.rpm < th.rpm_min ∨ s.rpm > th.rpm_max))
    st.rpm_alarm t.2.1
  let c := updateAlarm (decide (s.current > th.current_max))
    st.current_alarm r.2.1
  (v.2.2 || t.2.2 || r.2.2 || c.2.2,
   { vibration_alarm := v.1, temperature_alarm := t.1, rpm_alarm := r.1,
     current_alarm := c.1, emergency_stop_time := st.emergency_stop_time,
     alarm_count := c.2.1 })

/-- trigger_emergency_stop (safety_task.c lines 128-141): set the shared
emergency flag and record the activation tick. -/
def trigger_emergency_stop (now : ℕ) (st : SafetyState) : Bool × SafetyState :=
  (true, { st with emergency_stop_time := now })

/-- check_emergency_clear (safety_task.c lines 144-171): when the emergency
flag is active and more than the minimum hold has elapsed, call
check_critical_conditions again and clear the flag when that call reports no
new critical edge.  Returns (new emergency flag, updated safety state). -/
def check_emergency_clear (s : Sensors) (th : Thresholds) (now : ℕ)
    (emergency : Bool) (st : SafetyState) : Bool × SafetyState :=
  if emergency then
    if now - st.emergency_stop_time > EMERGENCY_STOP_DURATION then
      let r := check_critical_conditions s th st
      if r.1 then (true, r.2) else (false, r.2)
    else (true, st)
  else (false, st)

/-- Number of simultaneously latched alarms, as counted in vSafetyTask. -/
def activeAlarms (st : SafetyState) : ℕ :=
  (if st.vibration_alarm then 1 else 0) + (if st.temperature_alarm then 1 else 0) +
    (if st.rpm_alarm then 1 else 0) + (if st.current_alarm then 1 else 0)

/-- The safety-governor-visible state: the shared emergency flag together with
the task-local SafetyState_t. -/
structure SafetySystem where
  emergency_stop : Bool
  safety : SafetyState
deriving DecidableEq, Repr

/-- The initial system state: emergency flag false, safety state zeroed. -/
def initSafetySystem : SafetySystem :=
  { emergency_stop := false, safety := initSafetyState }

/-- One iteration of the vSafetyTask control loop (safety_task.c lines
209-233): run check_critical_conditions; if it reported a new edge and at
least two alarms are simultaneously latched, trigger the emergency stop;
then run check_emergency_clear. -/
def safetyCycle (s : Sensors) (th : Thresholds) (now : ℕ) (sys : SafetySystem) :
    SafetySystem :=
  let r := check_critical_conditions s th sys.safety
  let t := if r.1 = true ∧ 2 ≤ activeAlarms r.2 then trigger_emergency_stop now r.2
           else (sys.emergency_stop, r.2)
  let c := check_emergency_clear s th now t.1 t.2
  { emergency_stop := c.1, safety := c.2 }

/-! ### Sensor task ISR drain (tasks/sensor_task.c) -/

/-- SensorISRData_t as drained by vSensorTask (sequence number omitted). -/
structure IsrSample where
  vibration : ℚ
  timestamp : ℕ
deriving DecidableEq, Repr

/-- The plant state touched by one drained ISR sample: the shared emergency
flag, the safety task's private state, and the sensor task's working
base vibration. -/
structure PlantState where
  emergency_stop : Bool
  safety : SafetyState
  base_vibration : ℚ
deriving DecidableEq, Repr

/-- One drained ISR item in vSensorTask (sensor_task.c lines 104-116): adopt
the sample's vibration as the working base value and, when it exceeds 80.0,
set the shared emergency-stop flag directly. -/
def sensorDrainStep (sample : IsrSample) (p : PlantState) : PlantState :=
  { p with base_vibration := sample.vibration,
           emergency_stop := if sample.vibration > 80 then true else p.emergency_stop }

/-! ### Concrete safety scenarios -/

/-- Readings with vibration and temperature both critical. -/
def sensVibTemp : Sensors := { vibration := 12, temperature := 90, rpm := 20, current := 50 }

/-- Readings with only vibration critical (still above the 10.0 threshold). -/
def sensVibOnly : Sensors := { vibration := 12, temperature := 45, rpm := 20, current := 50 }

/-- C1: the emergency stop IS cleared while the vibration condition still
holds.  After latching at tick 20 (two simultaneous critical conditions), a
cycle at tick 6000 with vibration still above its critical threshold clears
the flag: check_emergency_clear re-calls the edge-triggered
check_critical_conditions, which returns false for a persisting alarm, so the
"all conditions clear" re-check passes even though vibration is critical. -/
theorem c1_cleared_while_vibration_critical :
    (safetyCycle sensVibTemp defaultThresholds 20 initSafetySystem).emergency_stop = true ∧
    sensVibOnly.vibration > defaultThresholds.vibration_critical ∧
    (safetyCycle sensVibOnly defaultThresholds 6000
        (safetyCycle sensVibTemp defaultThresholds 20 initSafetySystem)).safety.vibration_alarm
      = true ∧
    (safetyCycle sensVibOnly defaultThresholds 6000
        (safetyCycle sensVibTemp defaultThresholds 20 initSafetySystem)).emergency_stop
      = false := by
  decide

/-- C4 counterexample: at tick 40 two alarms are simultaneously latched
(vibration and temperature persist from the tick-20 cycle), yet the cycle at
tick 40 does not record its own activation timestamp — the stored timestamp
stays 20, because trigger_emergency_stop only runs on a cycle with a new
rising edge. -/
theorem c4_persisting_alarms_no_new_timestamp :
    activeAlarms (safetyCycle sensVibTemp defaultThresholds 40
        (safetyCycle sensVibTemp defaultThresholds 20 initSafetySystem)).safety = 2 ∧
    (safetyCycle sensVibTemp defaultThresholds 40
        (safetyCycle sensVibTemp defaultThresholds 20 initSafetySystem)).safety.emergency_stop_time
      = 20 := by
  decide

/-- C4 amended: in every safety cycle in which check_critical_conditions
reports a new rising edge and the resulting count of simultaneously latched
alarms is at least 2, the governor latches emergency_stop and records the
activation timestamp in that same cycle; and when the emergency flag is down
and at most one alarm is latched after the check, the cycle never raises it. -/
theorem c4_two_of_four_latches_within_cycle :
    (∀ (s : Sensors) (th : Thresholds) (now : ℕ) (sys : SafetySystem),
      (check_critical_conditions s th sys.safety).1 = true →
      2 ≤ activeAlarms (check_critical_conditions s th sys.safety).2 →
      (safetyCycle s th now sys).emergency_stop = true ∧
      (safetyCycle s th now sys).safety.emergency_stop_time = now) ∧
    (∀ (s : Sensors) (th : Thresholds) (now : ℕ) (sys : SafetySystem),
      sys.emergency_stop = false →
      activeAlarms (check_critical_conditions s th sys.safety).2 ≤ 1 →
      (safetyCycle s th now sys).emergency_stop = false) := by
  constructor
  · intro s th now sys h1 h2
    simp only [safetyCycle]
    rw [if_pos ⟨h1, h2⟩]
    simp [trigger_emergency_stop, check_emergency_clear, EMERGENCY_STOP_DURATION]
  · intro s th now sys h1 h2
    simp only [safetyCycle]
    rw [if_neg (fun h => absurd h.2 (by omega))]
    simp [check_emergency_clear, h1]

/-- C4 witness: with vibration and temperature simultaneously critical from
the initial state, the edge and the 2-alarm count are concrete, and the cycle
latches with timestamp 20; with a single latched alarm nothing latches. -/
theorem c4_witness :
    ((safetyCycle sensVibTemp defaultThresholds 20 initSafetySystem).emergency_stop = true ∧
      (safetyCycle sensVibTemp defaultThresholds 20
        initSafetySystem).safety.emergency_stop_time = 20) ∧
    (safetyCycle sensVibOnly defaultThresholds 20 initSafetySystem).emergency_stop = false :=
  ⟨c4_two_of_four_latches_within_cycle.1 sensVibTemp defaultThresholds 20 initSafetySystem
      (by decide) (by decide),
   c4_two_of_four_latches_within_cycle.2 sensVibOnly defaultThresholds 20 initSafetySystem
      (by decide) (by decide)⟩

/-- C6: whenever the sensor task drains an ISR sample whose vibration exceeds
80.0, it sets the shared emergency-stop flag itself, while the safety task's
state — its four alarms, its activation timestamp, and hence the 2-of-4
accounting — is untouched: no alarm is raised and no activation timestamp is
recorded for the hold-duration check. -/
theorem c6_isr_direct_emergency (sample : IsrSample) (p : PlantState)
    (h : sample.vibration > 80) :
    (sensorDrainStep sample p).emergency_stop = true ∧
    (sensorDrainStep sample p).safety = p.safety ∧
    (sensorDrainStep sample p).safety.emergency_stop_time = p.safety.emergency_stop_time ∧
    activeAlarms (sensorDrainStep sample p).safety = activeAlarms p.safety := by
  simp [sensorDrainStep, if_pos h]

/-- C6 witness: a concrete ISR sample with vibration 81 on the initial plant
state triggers the direct emergency path. -/
theorem c6_witness :
    (sensorDrainStep { vibration := 81, timestamp := 0 }
      { emergency_stop := false, safety := initSafetyState,
        base_vibration := 0 }).emergency_stop = true :=
  (c6_isr_direct_emergency { vibration := 81, timestamp := 0 }
    { emergency_stop := false, safety := initSafetyState, base_vibration := 0 }
    (by decide)).1

/-! ### Anomaly task embedding (tasks/anomaly_task.c) -/

/-- Per-channel history capacity, HISTORY_SIZE = 100. -/
def HISTORY_SIZE : ℕ := 100

/-- Trailing baseline window, BASELINE_WINDOW = 20. -/
def BASELINE_WINDOW : ℕ := 20

/-- The array position written by the store step of detect_anomalies
(anomaly_task.c line 120): idx = history_index % HISTORY_SIZE. -/
def storeIndex (history_index : ℕ) : ℕ := history_index % HISTORY_SIZE

/-- The first array position read by update_baselines (anomaly_task.c lines
73-80): 0 while warming up, else history_index - BASELINE_WINDOW, with no
wraparound applied. -/
def windowStart (history_index : ℕ) : ℕ :=
  if history_index < BASELINE_WINDOW then 0 else history_index - BASELINE_WINDOW

/-- The number of values read by update_baselines: history_index while warming
up, else BASELINE_WINDOW. -/
def windowCount (history_index : ℕ) : ℕ :=
  if history_index < BASELINE_WINDOW then history_index else BASELINE_WINDOW

/-- The array positions calculate_mean and calculate_stddev traverse when
called from update_baselines: windowStart, windowStart + 1, …,
windowStart + windowCount - 1. -/
def windowIndices (history_index : ℕ) : List ℕ :=
  (List.range (windowCount history_index)).map (fun i => windowStart history_index + i)

/-- C2: once the 101st sample has been appended (history_index = 101), that
newest sample sits at ring position 0, but the baseline window reads positions
81 … 100 — it misses the newest sample entirely and reads position 100, which
lies outside the 100-element array.  The recomputed baseline therefore cannot
be the mean of the 20 most recently appended values after the ring wraps. -/
theorem c2_baseline_window_breaks_after_wrap :
    storeIndex 100 = 0 ∧
    0 ∉ windowIndices 101 ∧
    100 ∈ windowIndices 101 ∧
    ¬ 100 < HISTORY_SIZE := by
  decide

/-- C3: the store step always writes inside the array, but from the 101st
sample onward the baseline window reads out of bounds; at history_index = 121
every one of its 20 reads uses a position at or beyond HISTORY_SIZE = 100. -/
theorem c3_window_reads_exceed_capacity :
    (∀ n, storeIndex n < HISTORY_SIZE) ∧
    (windowIndices 121).all (fun i => decide (HISTORY_SIZE ≤ i)) = true ∧
    windowCount 121 = BASELINE_WINDOW := by
  refine ⟨fun n => Nat.mod_lt _ (by decide), by decide, by decide⟩

/-- Baseline and spread values held in DetectionState_t, as consumed by the
health-score computation of detect_anomalies. -/
structure DetectionBaselines where
  vibration_baseline : ℚ
  temperature_baseline : ℚ
  rpm_baseline : ℚ
  vibration_stddev : ℚ
  temperature_stddev : ℚ
  rpm_stddev : ℚ
deriving DecidableEq, Repr

/-- The health-score computation of detect_anomalies (anomaly_task.c lines
173-219): start from 100, subtract a capped deviation penalty per channel
whose spread is positive (fmin caps of 30 / 25 / 25), overwrite with 0 when
the shared emergency-stop flag is set, and store fmax(health, 0). -/
def computeHealth (d : DetectionBaselines) (vib temp rpm : ℚ) (emergency : Bool) : ℚ :=
  max
    (if emergency then 0 else
      100
        - (if 0 < d.vibration_stddev then
            min (|vib - d.vibration_baseline| / (d.vibration_stddev * 3) * 20) 30 else 0)
        - (if 0 < d.temperature_stddev then
            min (|temp - d.temperature_baseline| / (d.temperature_stddev * 3) * 15) 25 else 0)
        - (if 0 < d.rpm_stddev then
            min (|rpm - d.rpm_baseline| / (d.rpm_stddev * 3) * 15) 25 else 0))
    0

/-- C7: the published health score always lies in [0, 100], and whenever the
shared emergency-stop flag is observed set during the cycle the published
score is exactly 0. -/
theorem c7_health_score_in_range (d : DetectionBaselines) (vib temp rpm : ℚ)
    (em : Bool) :
    0 ≤ computeHealth d vib temp rpm em ∧
    computeHealth d vib temp rpm em ≤ 100 ∧
    (em = true → computeHealth d vib temp rpm em = 0) := by
  have k1 : (0:ℚ) ≤ if 0 < d.vibration_stddev then
      min (|vib - d.vibration_baseline| / (d.vibration_stddev * 3) * 20) 30 else 0 := by
    split_ifs with h
    · exact le_min (by positivity) (by norm_num)
    · exact le_refl 0
  have k2 : (0:ℚ) ≤ if 0 < d.temperature_stddev then
      min (|temp - d.temperature_baseline| / (d.temperature_stddev * 3) * 15) 25 else 0 := by
    split_ifs with h
    · exact le_min (by positivity) (by norm_num)
    · exact le_refl 0
  have k3 : (0:ℚ) ≤ if 0 < d.rpm_stddev then
      min (|rpm - d.rpm_baseline| / (d.rpm_stddev * 3) * 15) 25 else 0 := by
    split_ifs with h
    · exact le_min (by positivity) (by norm_num)
    · exact le_refl 0
  refine ⟨le_max_right _ _, ?_, ?_⟩
  · unfold computeHealth
    refine max_le ?_ (by norm_num)
    cases em
    · simp only [Bool.false_eq_true, if_false]
      linarith
    · simp
  · intro h
    subst h
    simp [computeHealth]

/-- C7 witness: with the emergency flag set the published score is exactly 0,
and in general it is bounded, at a concrete baseline state. -/
theorem c7_witness :
    computeHealth { vibration_baseline := 2, temperature_baseline := 45,
                    rpm_baseline := 20, vibration_stddev := 1, temperature_stddev := 1,
                    rpm_stddev := 1 } 9 50 22 true = 0 :=
  (c7_health_score_in_range _ 9 50 22 true).2.2 rfl

/-- Anomaly flags published in AnomalyResults_t. -/
structure AnomalyFlags where
  vibration_anomaly : Bool
  temperature_anomaly : Bool
  rpm_anomaly : Bool
deriving DecidableEq, Repr

/-- AnomalyAlert_t: severity (float 0-10 scale), type tag, timestamp. -/
structure AnomalyAlert where
  severity : ℚ
  type : ℕ
  timestamp : ℕ
deriving DecidableEq, Repr

/-- The alert-emission decision of vAnomalyTask (anomaly_task.c lines
287-314): on even cycle counts, when a vibration or temperature anomaly is
flagged, build one alert with severity 8 (type 0) for vibration and 5
(type 1) otherwise; on other cycles, or with neither flag set, emit nothing. -/
def alertDecision (cycle_count : ℕ) (a : AnomalyFlags) (now : ℕ) : Option AnomalyAlert :=
  if cycle_count % 2 = 0 then
    if a.vibration_anomaly || a.temperature_anomaly then
      some { severity := if a.vibration_anomaly then 8 else 5,
             type := if a.vibration_anomaly then 0 else 1,
             timestamp := now }
    else none
  else none

/-- Capacity of xAnomalyAlertQueue (xQueueCreate(3, …) in integrated/main.c). -/
def ALERT_QUEUE_LENGTH : ℕ := 3

/-- The non-blocking xQueueSend(…, 0) used for alerts: append when the queue
has room, drop the alert when it is full. -/
def alertQueueSend (q : List AnomalyAlert) (al : AnomalyAlert) : List AnomalyAlert :=
  if q.length < ALERT_QUEUE_LENGTH then q ++ [al] else q

/-- C8 counterexample: on an even detection cycle with only the
rotational-speed anomaly flagged, the detector emits no alert at all — the
emission test reads the vibration and temperature flags only. -/
theorem c8_rpm_only_anomaly_emits_nothing :
    (({ vibration_anomaly := false, temperature_anomaly := false,
        rpm_anomaly := true } : AnomalyFlags)).rpm_anomaly = true ∧
    alertDecision 2 { vibration_anomaly := false, temperature_anomaly := false,
                      rpm_anomaly := true } 7 = none := by
  decide

/-- C8 amended: on every second detection cycle, if a vibration or temperature
anomaly is flagged the detector emits exactly one alert — severity 8 when the
vibration flag is set and 5 otherwise — while an rpm-only anomaly emits
nothing; the send is non-blocking and drops the alert when the queue is full. -/
theorem c8_alert_emission_rule (n now : ℕ) (a : AnomalyFlags)
    (q : List AnomalyAlert) (al : AnomalyAlert) (hn : n % 2 = 0) :
    ((a.vibration_anomaly || a.temperature_anomaly) = true →
      alertDecision n a now =
        some { severity := if a.vibration_anomaly then 8 else 5,
               type := if a.vibration_anomaly then 0 else 1, timestamp := now }) ∧
    ((a.vibration_anomaly || a.temperature_anomaly) = false →
      alertDecision n a now = none) ∧
    (ALERT_QUEUE_LENGTH ≤ q.length → alertQueueSend q al = q) := by
  refine ⟨fun h => ?_, fun h => ?_, fun h => ?_⟩
  · simp [alertDecision, hn, h]
  · simp [alertDecision, hn, h]
  · simp [alertQueueSend, Nat.not_lt.mpr h]

/-- C8 witness: an even cycle with the vibration flag set emits the severity-8
alert, and a full 3-element queue drops a further alert. -/
theorem c8_witness :
    alertDecision 4 { vibration_anomaly := true, temperature_anomaly := false,
                      rpm_anomaly := false } 11 =
      some { severity := 8, type := 0, timestamp := 11 } ∧
    alertQueueSend [{ severity := 5, type := 1, timestamp := 1 },
        { severity := 5, type := 1, timestamp := 2 },
        { severity := 8, type := 0, timestamp := 3 }]
        { severity := 8, type := 0, timestamp := 4 } =
      [{ severity := 5, type := 1, timestamp := 1 },
        { severity := 5, type := 1, timestamp := 2 },
        { severity := 8, type := 0, timestamp := 3 }] :=
  ⟨(c8_alert_emission_rule 4 11 _ [] { severity := 8, type := 0, timestamp := 4 }
      (by decide)).1 (by decide),
   (c8_alert_emission_rule 4 11
      { vibration_anomaly := true, temperature_anomaly := false, rpm_anomaly := false }
      _ _ (by decide)).2.2 (by decide)⟩

/-! ### Readiness bits embedding (event group xSystemReadyEvents) -/

/-- The three readiness bits of xSystemReadyEvents: SENSORS_CALIBRATED_BIT,
NETWORK_CONNECTED_BIT, ANOMALY_READY_BIT. -/
structure ReadyBits where
  sensors_calibrated : Bool
  network_connected : Bool
  anomaly_ready : Bool
deriving DecidableEq, Repr

/-- Event group at creation: all bits clear. -/
def initReadyBits : ReadyBits :=
  { sensors_calibrated := false, network_connected := false, anomaly_ready := false }

/-- The calibration check of vSensorTask (sensor_task.c lines 71-86): when the
local flag is down and 20 cycles have run, raise the local flag and set
SENSORS_CALIBRATED_BIT.  Returns (new local flag, new bits). -/
def sensorReadyStep (cycle_count : ℕ) (calibrated : Bool) (b : ReadyBits) :
    Bool × ReadyBits :=
  if !calibrated && decide (20 ≤ cycle_count) then
    (true, { b with sensors_calibrated := true })
  else (calibrated, b)

/-- The baseline-ready check of vAnomalyTask (anomaly_task.c lines 270-285):
when the local flag is down and the history has reached BASELINE_WINDOW
samples, raise the local flag and set ANOMALY_READY_BIT. -/
def anomalyReadyStep (history_index : ℕ) (ready : Bool) (b : ReadyBits) :
    Bool × ReadyBits :=
  if !ready && decide (BASELINE_WINDOW ≤ history_index) then
    (true, { b with anomaly_ready := true })
  else (ready, b)

/-- The outcome handling of transmit_packet (network_task.c lines 221-263): on
simulated failure, drop the network_connected flag and clear
NETWORK_CONNECTED_BIT; on success the flag and bit are untouched.  Returns
(new connected flag, new bits). -/
def transmitResultStep (success : Bool) (connected : Bool) (b : ReadyBits) :
    Bool × ReadyBits :=
  if success then (connected, b)
  else (false, { b with network_connected := false })

/-- check_network_reconnect (network_task.c lines 266-301): when disconnected
and the probabilistic attempt succeeds, raise the connected flag and set
NETWORK_CONNECTED_BIT. -/
def reconnectStep (success : Bool) (connected : Bool) (b : ReadyBits) :
    Bool × ReadyBits :=
  if !connected && success then (true, { b with network_connected := true })
  else (connected, b)

/-- Any one of the readiness-bit-touching steps, tagged by its originating
worker, acting on the event-group bits. -/
inductive ReadyEvent where
  | sensorCycle (cycle_count : ℕ) (calibrated : Bool)
  | anomalyCycle (history_index : ℕ) (ready : Bool)
  | transmitResult (success : Bool) (connected : Bool)
  | reconnectAttempt (success : Bool) (connected : Bool)
deriving DecidableEq, Repr

/-- The effect of a readiness event on the event-group bits. -/
def applyReadyEvent : ReadyEvent → ReadyBits → ReadyBits
  | ReadyEvent.sensorCycle c cal, b => (sensorReadyStep c cal b).2
  | ReadyEvent.anomalyCycle h r, b => (anomalyReadyStep h r b).2
  | ReadyEvent.transmitResult s c, b => (transmitResultStep s c b).2
  | ReadyEvent.reconnectAttempt s c, b => (reconnectStep s c b).2

/-- C5 counterexample: after a successful reconnect has set the
network-connected bit, a single simulated transmission failure clears it —
the bit is not set-once and is cleared after being set. -/
theorem c5_network_bit_cleared_after_set :
    (reconnectStep true false initReadyBits).2.network_connected = true ∧
    (transmitResultStep false (reconnectStep true false initReadyBits).1
        (reconnectStep true false initReadyBits).2).2.network_connected = false := by
  decide

/-- C5 amended: the sensors-calibrated and anomaly-baseline-ready bits are
each set at most once by their owning worker and never cleared by any worker
(setting an already-set flag has no effect), while the network-connected bit
is cleared by the network worker on every transmission failure and set again
on every successful reconnect. -/
theorem c5_set_once_except_network :
    (∀ (e : ReadyEvent) (b : ReadyBits), b.sensors_calibrated = true →
      (applyReadyEvent e b).sensors_calibrated = true) ∧
    (∀ (e : ReadyEvent) (b : ReadyBits), b.anomaly_ready = true →
      (applyReadyEvent e b).anomaly_ready = true) ∧
    (∀ (c : ℕ) (b : ReadyBits), sensorReadyStep c true b = (true, b)) ∧
    (∀ (h : ℕ) (b : ReadyBits), anomalyReadyStep h true b = (true, b)) ∧
    (∀ (c : Bool) (b : ReadyBits), (transmitResultStep false c b).2.network_connected = false) ∧
    (∀ (b : ReadyBits), (reconnectStep true false b).2.network_connected = true) := by
  refine ⟨?_, ?_, ?_, ?_, ?_, ?_⟩
  · intro e b hb
    cases e <;>
      simp [applyReadyEvent, sensorReadyStep, anomalyReadyStep, transmitResultStep,
        reconnectStep] <;> split_ifs <;> simp [hb]
  · intro e b hb
    cases e <;>
      simp [applyReadyEvent, sensorReadyStep, anomalyReadyStep, transmitResultStep,
        reconnectStep] <;> split_ifs <;> simp [hb]
  · intro c b; simp [sensorReadyStep]
  · intro h b; simp [anomalyReadyStep]
  · intro c b; simp [transmitResultStep]
  · intro b; simp [reconnectStep]

/-- C5 witness: the sensors-calibrated bit survives a network failure event,
and a second sensor set is a no-op, at concrete states. -/
theorem c5_witness :
    (applyReadyEvent (ReadyEvent.transmitResult false true)
      { sensors_calibrated := true, network_connected := true,
        anomaly_ready := false }).sensors_calibrated = true ∧
    sensorReadyStep 25 true initReadyBits = (true, initReadyBits) :=
  ⟨c5_set_once_except_network.1 (ReadyEvent.transmitResult false true)
      { sensors_calibrated := true, network_connected := true, anomaly_ready := false }
      rfl,
   c5_set_once_except_network.2.2.1 25 initReadyBits⟩

/-! ### Stack monitor embedding (integrated/main.c, update_stack_monitoring) -/

/-- TaskStackMonitor_t fields updated by update_stack_monitoring (time stamp
and name fields omitted). -/
structure TaskStackMonitor where
  current_high_water : ℕ
  minimum_high_water : ℕ
  usage_percent : ℕ
  peak_usage_percent : ℕ
  warning_issued : Bool
deriving DecidableEq, Repr

/-- Global stack statistics counters touched by update_stack_monitoring. -/
structure StackGlobalStats where
  high_usage_events : ℕ
  critical_usage_events : ℕ
  warnings_issued : ℕ
deriving DecidableEq, Repr

/-- update_stack_monitoring (integrated/main.c lines 346-391) for an existing
monitor entry: refresh the current stats, keep the minimum high-water mark
non-increasing and the peak usage non-decreasing, count a critical event at
usage ≥ 85 or a high-usage event at ≥ 70 only while the warning latch is
clear, set the latch on either count, and drop the latch when usage falls
below 60. -/
def stackMonitorStep (stack_free_words usage_percent : ℕ)
    (m : TaskStackMonitor) (g : StackGlobalStats) :
    TaskStackMonitor × StackGlobalStats :=
  let m1 : TaskStackMonitor :=
    { current_high_water := stack_free_words,
      minimum_high_water := if stack_free_words < m.minimum_high_water
        then stack_free_words else m.minimum_high_water,
      usage_percent := usage_percent,
      peak_usage_percent := if m.peak_usage_percent < usage_percent
        then usage_percent else m.peak_usage_percent,
      warning_issued := m.warning_issued }
  let ig : Bool × StackGlobalStats :=
    if 85 ≤ usage_percent ∧ m1.warning_issued = false then
      (true, { g with critical_usage_events := g.critical_usage_events + 1 })
    else if 70 ≤ usage_percent ∧ m1.warning_issued = false then
      (true, { g with high_usage_events := g.high_usage_events + 1 })
    else (false, g)
  let m2 := if ig.1 then { m1 with warning_issued := true } else m1
  let g2 := if ig.1 then { ig.2 with warnings_issued := ig.2.warnings_issued + 1 } else ig.2
  let m3 := if usage_percent < 60 ∧ m2.warning_issued = true
    then { m2 with warning_issued := false } else m2
  (m3, g2)

/-- A monitor entry as first created (warning latch clear). -/
def freshMonitor : TaskStackMonitor :=
  { current_high_water := 1000, minimum_high_water := 1000, usage_percent := 0,
    peak_usage_percent := 0, warning_issued := false }

/-- Zeroed global stack statistics. -/
def zeroStackStats : StackGlobalStats :=
  { high_usage_events := 0, critical_usage_events := 0, warnings_issued := 0 }

/-- C9 counterexample: usage rising to 75 % latches the warning, and a later
sample at 90 % — above the 85 % critical threshold, with no dip below 60 % in
between — counts no critical escalation at all: the latch set at 70 % blocks
the 85 % branch. -/
theorem c9_no_escalation_while_latched :
    (stackMonitorStep 250 75 freshMonitor zeroStackStats).1.warning_issued = true ∧
    (stackMonitorStep 100 90 (stackMonitorStep 250 75 freshMonitor zeroStackStats).1
        (stackMonitorStep 250 75 freshMonitor zeroStackStats).2).2.critical_usage_events = 0 ∧
    (stackMonitorStep 100 90 (stackMonitorStep 250 75 freshMonitor zeroStackStats).1
        (stackMonitorStep 250 75 freshMonitor zeroStackStats).2).2.high_usage_events = 1 := by
  decide

/-- C9 amended: per excursion, at most one event is latched — a critical event
when usage is already at or above 85 % at the first check with the latch
clear, otherwise a warning at 70 % (with no later escalation to critical while
the latch holds); nothing is re-counted until usage drops below 60 %, which
resets the latch; the trace 75 % then 55 % yields exactly one warning and one
recovery. -/
theorem c9_hysteresis_latch :
    (∀ (free u : ℕ) (m : TaskStackMonitor) (g : StackGlobalStats),
      m.warning_issued = true → 60 ≤ u →
      (stackMonitorStep free u m g).2 = g ∧
      (stackMonitorStep free u m g).1.warning_issued = true) ∧
    (∀ (free u : ℕ) (m : TaskStackMonitor) (g : StackGlobalStats),
      m.warning_issued = true → u < 60 →
      (stackMonitorStep free u m g).2 = g ∧
      (stackMonitorStep free u m g).1.warning_issued = false) ∧
    (∀ (free u : ℕ) (m : TaskStackMonitor) (g : StackGlobalStats),
      m.warning_issued = false → 85 ≤ u →
      (stackMonitorStep free u m g).2.critical_usage_events = g.critical_usage_events + 1 ∧
      (stackMonitorStep free u m g).2.high_usage_events = g.high_usage_events ∧
      (stackMonitorStep free u m g).2.warnings_issued = g.warnings_issued + 1 ∧
      (stackMonitorStep free u m g).1.warning_issued = true) ∧
    (∀ (free u : ℕ) (m : TaskStackMonitor) (g : StackGlobalStats),
      m.warning_issued = false → 70 ≤ u → u < 85 →
      (stackMonitorStep free u m g).2.high_usage_events = g.high_usage_events + 1 ∧
      (stackMonitorStep free u m g).2.critical_usage_events = g.critical_usage_events ∧
      (stackMonitorStep free u m g).2.warnings_issued = g.warnings_issued + 1 ∧
      (stackMonitorStep free u m g).1.warning_issued = true) ∧
    (∀ (free u : ℕ) (m : TaskStackMonitor) (g : StackGlobalStats),
      m.warning_issued = false → u < 70 →
      (stackMonitorStep free u m g).2 = g ∧
      (stackMonitorStep free u m g).1.warning_issued = false) ∧
    ((stackMonitorStep 250 75 freshMonitor zeroStackStats).2.warnings_issued = 1 ∧
      (stackMonitorStep 250 75 freshMonitor zeroStackStats).1.warning_issued = true ∧
      (stackMonitorStep 300 55 (stackMonitorStep 250 75 freshMonitor zeroStackStats).1
          (stackMonitorStep 250 75 freshMonitor zeroStackStats).2).1.warning_issued = false ∧
      (stackMonitorStep 300 55 (stackMonitorStep 250 75 freshMonitor zeroStackStats).1
          (stackMonitorStep 250 75 freshMonitor zeroStackStats).2).2 =
        (stackMonitorStep 250 75 freshMonitor zeroStackStats).2) := by
  refine ⟨?_, ?_, ?_, ?_, ?_, by decide⟩
  · intro free u m g h1 h2
    simp [stackMonitorStep, h1, Nat.not_lt.mpr h2]
  · intro free u m g h1 h2
    simp [stackMonitorStep, h1, h2]
  · intro free u m g h1 h2
    simp [stackMonitorStep, h1, h2, show ¬ u < 60 from by omega]
  · intro free u m g h1 h2 h3
    simp [stackMonitorStep, h1, h2, show ¬ 85 ≤ u from by omega,
      show ¬ u < 60 from by omega]
  · intro free u m g h1 h2
    simp [stackMonitorStep, h1, show ¬ 85 ≤ u from by omega,
      show ¬ 70 ≤ u from by omega]

/-- C9 witness: a latched monitor at 72 % usage counts nothing, a fresh
monitor at 90 % counts exactly one critical event, at concrete states. -/
theorem c9_witness :
    (stackMonitorStep 200 72
        { freshMonitor with warning_issued := true } zeroStackStats).2 = zeroStackStats ∧
    (stackMonitorStep 80 90 freshMonitor zeroStackStats).2.critical_usage_events = 1 :=
  ⟨(c9_hysteresis_latch.1 200 72 { freshMonitor with warning_issued := true }
      zeroStackStats rfl (by decide)).1,
   (c9_hysteresis_latch.2.2.1 80 90 freshMonitor zeroStackStats rfl (by decide)).1⟩

/-! ### Network task memory accounting (tasks/network_task.c) -/

/-- Packet classes of network_task.c. -/
inductive PacketType where
  | heartbeat
  | sensor_data
  | anomaly_report
deriving DecidableEq, Repr

/-- Payload size per class: PACKET_HEARTBEAT_SIZE 64, PACKET_SENSOR_SIZE 256,
PACKET_ANOMALY_SIZE 512. -/
def packetPayloadSize : PacketType → ℕ
  | PacketType.heartbeat => 64
  | PacketType.sensor_data => 256
  | PacketType.anomaly_report => 512

/-- Allocation size of allocate_packet: sizeof(PacketBuffer_t) — the header,
kept abstract — plus the class payload size. -/
def packetAllocSize (hdr : ℕ) (t : PacketType) : ℕ := hdr + packetPayloadSize t

/-- The memory-accounting counters of MemoryStats_t touched by the network
task (heap-free sampling omitted). -/
structure MemoryStats where
  allocations : ℕ
  deallocations : ℕ
  allocation_failures : ℕ
  bytes_allocated : ℕ
  peak_usage : ℕ
  active_allocations : ℕ
deriving DecidableEq, Repr

/-- update_memory_stats_alloc (network_task.c lines 66-100): count the
allocation, raise the active count and allocated bytes, refresh the peak. -/
def update_memory_stats_alloc (size : ℕ) (m : MemoryStats) : MemoryStats :=
  let m1 := { m with allocations := m.allocations + 1,
                     active_allocations := m.active_allocations + 1,
                     bytes_allocated := m.bytes_allocated + size }
  { m1 with peak_usage := if m1.peak_usage < m1.bytes_allocated
      then m1.bytes_allocated else m1.peak_usage }

/-- update_memory_stats_free (network_task.c lines 102-131): count the free,
drop the active count and allocated bytes. -/
def update_memory_stats_free (size : ℕ) (m : MemoryStats) : MemoryStats :=
  { m with deallocations := m.deallocations + 1,
           active_allocations := m.active_allocations - 1,
           bytes_allocated := m.bytes_allocated - size }

/-- update_memory_stats_failure (network_task.c lines 133-142). -/
def update_memory_stats_failure (m : MemoryStats) : MemoryStats :=
  { m with allocation_failures := m.allocation_failures + 1 }

/-- The memory-accounting effect of one vNetworkTask cycle (network_task.c
lines 311-395): skip everything while disconnected; on a successful
allocation, account the allocation, transmit (success or failure touches no
memory counter), and free the same packet in the same cycle; on an allocation
failure, count it and skip the transmission. -/
def networkCycleMemory (connected allocOk transmitOk : Bool) (hdr : ℕ)
    (t : PacketType) (m : MemoryStats) : MemoryStats :=
  if !connected then m
  else if allocOk then
    update_memory_stats_free (packetAllocSize hdr t)
      (update_memory_stats_alloc (packetAllocSize hdr t) m)
  else
    update_memory_stats_failure m

/-- C10: every Transmission Worker cycle leaves the active-allocation counter
at its pre-cycle value, whatever the simulated transmission outcome; an
allocation failure on a connected cycle performs exactly the failure count —
no allocation — and raises the failure counter by one. -/
theorem c10_allocation_balanced (connected allocOk transmitOk : Bool)
    (hdr : ℕ) (t : PacketType) (m : MemoryStats) :
    (networkCycleMemory connected allocOk transmitOk hdr t m).active_allocations
      = m.active_allocations ∧
    (connected = true → allocOk = false →
      networkCycleMemory connected allocOk transmitOk hdr t m
          = update_memory_stats_failure m ∧
      (networkCycleMemory connected allocOk transmitOk hdr t m).allocation_failures
          = m.allocation_failures + 1 ∧
      (networkCycleMemory connected allocOk transmitOk hdr t m).allocations
          = m.allocations) := by
  cases connected <;> cases allocOk <;>
    simp [networkCycleMemory, update_memory_stats_alloc, update_memory_stats_free,
      update_memory_stats_failure]

/-- C10 witness: a connected cycle with a failed allocation and a failed
transmission leaves the active count unchanged and counts one failure, at a
concrete stats record. -/
theorem c10_witness :
    (networkCycleMemory true false false 16 PacketType.sensor_data
        { allocations := 3, deallocations := 3, allocation_failures := 0,
          bytes_allocated := 0, peak_usage := 528, active_allocations := 0 }).active_allocations
      = 0 ∧
    (networkCycleMemory true false false 16 PacketType.sensor_data
        { allocations := 3, deallocations := 3, allocation_failures := 0,
          bytes_allocated := 0, peak_usage := 528, active_allocations := 0 }).allocation_failures
      = 1 :=
  ⟨(c10_allocation_balanced true false false 16 PacketType.sensor_data
      { allocations := 3, deallocations := 3, allocation_failures := 0,
        bytes_allocated := 0, peak_usage := 528, active_allocations := 0 }).1,
   ((c10_allocation_balanced true false false 16 PacketType.sensor_data
      { allocations := 3, deallocations := 3, allocation_failures := 0,
        bytes_allocated := 0, peak_usage := 528, active_allocations := 0 }).2
      rfl rfl).2.1⟩

end WindTurbine
